import Mathlib

/-!
Shallow embedding of the SMS one-time-code authentication flow of the
App-Servicios backend (Express + Mongoose). The embedded code lives in
`routes/auth.js` (register / verify / cleanup endpoints), `models/user.js`
(the `User` document) and `index.js` (the `express-rate-limit` guard on the
`/auth` route family).

Modelling conventions:
* A Mongo `User` document is the structure `Account`; `null` fields are
  `Option.none`; `Date` values are absolute timestamps in milliseconds
  (`Nat`).
* The per-phone view of the collection is `Option Account` (the `telefono`
  field carries a unique index, so `findOne { telefono }` sees at most one
  document); the cleanup sweep, which is collection-wide, takes the whole
  collection as a `List Account`.
* `Math.random()` is modelled by an arbitrary natural seed `k`: the JS
  expression `Math.floor(100000 + Math.random() * 900000)` becomes
  `100000 + k % 900000`, whose range is exactly the range of the JS
  expression.
* `Number.prototype.toString` on a natural number is `natToString`
  (decimal rendering, no leading zeros, big-endian), built from
  `Nat.digits`.
* JS `user.codigoExpira < new Date()` coerces `null` to `0`; `dateValue`
  reproduces that coercion.
-/

namespace ServiPro

/-- The `User` mongoose document of `models/user.js`: phone, pending
verification code, its expiry and the verified flag (timestamps managed by
the store are omitted; no claim mentions them). -/
structure Account where
  telefono : String
  codigoVerificacion : Option String
  codigoExpira : Option Nat
  verificado : Bool
deriving DecidableEq

/-- `telefonoSchema` of `routes/auth.js`: the Joi pattern `^\+\d{8,15}$`
(a mandatory leading plus sign followed by 8 to 15 digits). -/
def telefonoValido (s : String) : Bool :=
  match s.data with
  | '+' :: ds => ds.all Char.isDigit && decide (8 ≤ ds.length) && decide (ds.length ≤ 15)
  | _ => false

/-- Decimal rendering of a natural number, as `Number.prototype.toString`
produces it: most significant digit first, no leading zeros. -/
def natToString (n : Nat) : String :=
  if n = 0 then "0" else String.mk ((Nat.digits 10 n).reverse.map Nat.digitChar)

/-- The code generator of `routes/auth.js`:
`Math.floor(100000 + Math.random() * 900000).toString()`, with the random
draw `Math.floor(Math.random() * 900000)` modelled by `k % 900000`. -/
def generarCodigo (k : Nat) : String :=
  natToString (100000 + k % 900000)

/-- The expiry window of `routes/auth.js`: `10 * 60 * 1000` milliseconds. -/
def codigoExpiraMs : Nat := 10 * 60 * 1000

/-- Body of the JSON answer of a successful `POST /auth/register`. The
`codigo` field is `Option`-valued because a JSON object may or may not
carry the field; the code under embedding always fills it. -/
structure RegisterResponse where
  mensaje : String
  codigo : Option String
deriving DecidableEq

/-- Outcome of `POST /auth/register`. -/
inductive RegisterResult where
  | validationError (msg : String)
  | ok (resp : RegisterResponse)
deriving DecidableEq

def telefonoErrMsg : String :=
  "El número de teléfono debe comenzar con el signo mas y tener entre 8 y 15 dígitos."

def registerOkMsg : String :=
  "Código de verificación enviado (modo desarrollo, SMS simulado)."

/-- `router.post("/register")` of `routes/auth.js`: validate the phone with
`telefonoSchema`, generate a fresh code and a 10-minute expiry, create the
account if absent or overwrite its code fields (setting
`verificado = false`) if present, save, and answer with a message that
always carries the generated code. -/
def register (store : Option Account) (telefono : String) (k now : Nat) :
    Option Account × RegisterResult :=
  if ¬ telefonoValido telefono then
    (store, .validationError telefonoErrMsg)
  else
    let codigo := generarCodigo k
    let codigoExpira := now + codigoExpiraMs
    let user : Account :=
      match store with
      | none =>
        { telefono := telefono
          codigoVerificacion := some codigo
          codigoExpira := some codigoExpira
          verificado := false }
      | some u =>
        { u with
          codigoVerificacion := some codigo
          codigoExpira := some codigoExpira
          verificado := false }
    (some user, .ok { mensaje := registerOkMsg, codigo := some codigo })

/-- The JWT payload built by `router.post("/verify")` (the Mongo `_id` is
not modelled: the phone is already the unique identity key). -/
structure TokenPayload where
  telefono : String
  verificado : Bool
  role : String
deriving DecidableEq

/-- Outcome of `POST /auth/verify`. -/
inductive VerifyResult where
  | validationError (msg : String)
  | notFound
  | invalidCode
  | expired
  | success (payload : TokenPayload)
deriving DecidableEq

def codigoErrMsg : String := "El código debe tener exactamente 6 caracteres."

/-- JS date coercion: `null < new Date()` compares `0` with the timestamp,
`someDate < new Date()` compares the timestamps. -/
def dateValue : Option Nat → Nat
  | none => 0
  | some t => t

/-- `router.post("/verify")` of `routes/auth.js`: Joi validates the phone
(`telefonoSchema`) and the code (`Joi.string().length(6)`), then the user
is looked up (`NotFound` if absent), the stored code is compared with the
supplied one (`invalidCode` on mismatch, where a cleared `null` code never
matches), then the expiry is checked (`expired` when `codigoExpira` is in
the past), and only then the account is mutated: `verificado := true` and
both code fields cleared in one `save`, answering with the JWT payload. -/
def verify (store : Option Account) (telefono codigo : String) (now : Nat) :
    Option Account × VerifyResult :=
  if ¬ telefonoValido telefono then
    (store, .validationError telefonoErrMsg)
  else if codigo.length ≠ 6 then
    (store, .validationError codigoErrMsg)
  else
    match store with
    | none => (none, .notFound)
    | some user =>
      if user.codigoVerificacion ≠ some codigo then
        (some user, .invalidCode)
      else if dateValue user.codigoExpira < now then
        (some user, .expired)
      else
        let user' : Account :=
          { user with
            verificado := true
            codigoVerificacion := none
            codigoExpira := none }
        (some user', .success
          { telefono := user.telefono, verificado := user'.verificado, role := "user" })

/-- `true` exactly on the success outcome of `verify`. -/
def VerifyResult.isSuccess : VerifyResult → Bool
  | .success _ => true
  | _ => false

/-- The Mongo query filter `{ codigoExpira: { $lt: now } }` of
`router.delete("/cleanup")`: by BSON type bracketing `$lt` with a `Date`
operand matches only documents whose field holds a `Date`, so `null` or
missing expiries never match. -/
def expiraVencido (now : Nat) (u : Account) : Bool :=
  match u.codigoExpira with
  | some t => decide (t < now)
  | none => false

/-- Effect of the `$unset` update of `router.delete("/cleanup")` on one
document: matched documents lose `codigoVerificacion` and `codigoExpira`,
unmatched documents are untouched. -/
def cleanupUser (now : Nat) (u : Account) : Account :=
  if expiraVencido now u then
    { u with codigoVerificacion := none, codigoExpira := none }
  else u

/-- `router.delete("/cleanup")`: `User.updateMany` over the collection with
the `$lt` filter and the `$unset` update; the returned number is the
`modifiedCount` reported by the route. -/
def cleanup (store : List Account) (now : Nat) : List Account × Nat :=
  (store.map (cleanupUser now), (store.filter (expiraVencido now)).length)

/-- Phone shape transcribed from the words of the spec, for comparison with
the source's `telefonoValido`: an optional leading plus sign followed by
8 to 15 digits. -/
def specPhoneShape (s : String) : Bool :=
  match s.data with
  | '+' :: ds => ds.all Char.isDigit && decide (8 ≤ ds.length) && decide (ds.length ≤ 15)
  | ds => ds.all Char.isDigit && decide (8 ≤ ds.length) && decide (ds.length ≤ 15)

/-- Code shape transcribed from the words of the spec, for comparison with
the source's Joi schema: a string of exactly six decimal digits. -/
def specCode6Digits (s : String) : Bool :=
  decide (s.length = 6) && s.data.all Char.isDigit

/-- Per-IP counter state of `express-rate-limit`: number of hits in the
current window and the instant the window opened. -/
structure LimiterEntry where
  count : Nat
  windowStart : Nat
deriving DecidableEq

/-- `windowMs: 60 * 60 * 1000` of the `authLimiter` in `index.js`. -/
def windowMs : Nat := 60 * 60 * 1000

/-- `max: 4` of the `authLimiter` in `index.js`. -/
def maxRequests : Nat := 4

/-- The structured `message` body the `authLimiter` answers with on a
rejected request. -/
structure RateLimitMessage where
  success : Bool
  message : String
deriving DecidableEq

def authLimiterMessage : RateLimitMessage :=
  { success := false
    message := "Has superado el límite de solicitudes. Intentá nuevamente más tarde." }

/-- One hit of the `express-rate-limit` memory store for one client IP:
a fresh key (or a key whose window has elapsed) opens a new window with
one hit; otherwise the counter of the open window is incremented. -/
def limiterHit (st : Option LimiterEntry) (now : Nat) : LimiterEntry :=
  match st with
  | none => { count := 1, windowStart := now }
  | some e =>
    if e.windowStart + windowMs ≤ now then { count := 1, windowStart := now }
    else { count := e.count + 1, windowStart := e.windowStart }

/-- The admission decision of `express-rate-limit`: the request passes when
the hit counter does not exceed `max`. -/
def limiterAllows (e : LimiterEntry) : Bool := decide (e.count ≤ maxRequests)

/-- Admission decisions of a sequence of requests from one client IP,
threading the limiter state. -/
def runLimiter : Option LimiterEntry → List Nat → List Bool
  | _, [] => []
  | st, t :: ts => limiterAllows (limiterHit st t) :: runLimiter (some (limiterHit st t)) ts

/-- A request to the `/auth` route family. -/
inductive AuthRequest where
  | registerReq (telefono : String) (k : Nat)
  | verifyReq (telefono codigo : String)
deriving DecidableEq

/-- What the `/auth` route family answers: either the limiter's 429 body or
the outcome of the route handler. -/
inductive AuthResponse where
  | rateLimited (body : RateLimitMessage)
  | fromRegister (r : RegisterResult)
  | fromVerify (r : VerifyResult)
deriving DecidableEq

/-- `app.use("/auth", authLimiter)` followed by `app.use("/auth",
authRoutes)` in `index.js`: the limiter is consulted first, and only an
admitted request reaches the register / verify handlers — a rejected one
answers the configured message and leaves the account store untouched. -/
def authApp (lim : Option LimiterEntry) (store : Option Account) (req : AuthRequest)
    (now : Nat) : LimiterEntry × Option Account × AuthResponse :=
  let e := limiterHit lim now
  if limiterAllows e then
    match req with
    | .registerReq t k =>
      let r := register store t k now
      (e, r.1, .fromRegister r.2)
    | .verifyReq t c =>
      let r := verify store t c now
      (e, r.1, .fromVerify r.2)
  else (e, store, .rateLimited authLimiterMessage)

/-! ### Claim theorems: the verification state machine -/

/-- Claim C2: when the stored pending code matches the supplied one but its
expiry timestamp is in the past, `verify` answers `expired` — the expiry
check runs after the match check, so an expired-but-matching code reports
`expired`, never `invalidCode` and never success — and the account is left
unchanged. -/
theorem C2_expired_after_match (u : Account) (t c : String) (now te : Nat)
    (ht : telefonoValido t = true) (hc : c.length = 6)
    (hmatch : u.codigoVerificacion = some c)
    (hte : u.codigoExpira = some te) (hlt : te < now) :
    verify (some u) t c now = (some u, .expired) := by
  simp [verify, ht, hc, hmatch, hte, dateValue, hlt]

theorem C2_expired_after_match_witness :
    telefonoValido "+34600000000" = true ∧
    ("426731" : String).length = 6 ∧
    (Account.mk "+34600000000" (some "426731") (some 100) false).codigoVerificacion
      = some "426731" ∧
    (Account.mk "+34600000000" (some "426731") (some 100) false).codigoExpira = some 100 ∧
    100 < 5000 ∧
    verify (some (Account.mk "+34600000000" (some "426731") (some 100) false))
        "+34600000000" "426731" 5000
      = (some (Account.mk "+34600000000" (some "426731") (some 100) false), .expired) :=
  ⟨by decide, by decide, by decide, by decide, by decide,
    C2_expired_after_match (Account.mk "+34600000000" (some "426731") (some 100) false)
      "+34600000000" "426731" 5000 100 (by decide) (by decide) (by decide) (by decide)
      (by decide)⟩

/-- Claim C1: with a matching, unexpired pending code, `verify` succeeds,
and the one persisted update simultaneously sets `verificado := true` and
clears the pending code and its expiry; any later `verify` with the same
code then answers `invalidCode`, never success — the code is usable at
most once. -/
theorem C1_code_single_use (u : Account) (t c : String) (now : Nat)
    (ht : telefonoValido t = true) (hc : c.length = 6)
    (hmatch : u.codigoVerificacion = some c)
    (hfresh : ¬ dateValue u.codigoExpira < now) :
    verify (some u) t c now =
      (some { u with verificado := true, codigoVerificacion := none, codigoExpira := none },
        .success { telefono := u.telefono, verificado := true, role := "user" }) ∧
    ∀ now' : Nat,
      verify
          (some { u with verificado := true, codigoVerificacion := none, codigoExpira := none })
          t c now' =
        (some { u with verificado := true, codigoVerificacion := none, codigoExpira := none },
          .invalidCode) := by
  constructor
  · simp [verify, ht, hc, hmatch, hfresh]
  · intro now'
    simp [verify, ht, hc]

theorem C1_code_single_use_witness :
    telefonoValido "+34600000000" = true ∧
    ("426731" : String).length = 6 ∧
    (Account.mk "+34600000000" (some "426731") (some 600000) false).codigoVerificacion
      = some "426731" ∧
    ¬ dateValue (Account.mk "+34600000000" (some "426731") (some 600000) false).codigoExpira
        < 1000 ∧
    (verify (some (Account.mk "+34600000000" (some "426731") (some 600000) false))
        "+34600000000" "426731" 1000 =
      (some (Account.mk "+34600000000" none none true),
        .success (TokenPayload.mk "+34600000000" true "user")) ∧
    ∀ now' : Nat,
      verify (some (Account.mk "+34600000000" none none true)) "+34600000000" "426731" now' =
        (some (Account.mk "+34600000000" none none true), .invalidCode)) :=
  ⟨by decide, by decide, by decide, by decide,
    C1_code_single_use (Account.mk "+34600000000" (some "426731") (some 600000) false)
      "+34600000000" "426731" 1000 (by decide) (by decide) (by decide) (by decide)⟩

/-- Claim C7: every failing `verify` call — validation error, `notFound`,
`invalidCode` or `expired` — leaves the stored account exactly as it was;
only the success path mutates it. -/
theorem C7_failure_no_mutation (store : Option Account) (t c : String) (now : Nat)
    (h : (verify store t c now).2.isSuccess = false) :
    (verify store t c now).1 = store := by
  unfold verify at h ⊢
  cases store with
  | none => split_ifs <;> rfl
  | some user =>
    simp only at h ⊢
    split_ifs at h ⊢ with h1 h2 h3 h4
    all_goals first | rfl | simp [VerifyResult.isSuccess] at h

theorem C7_failure_no_mutation_witness :
    (verify (some (Account.mk "+34600000000" (some "426731") (some 600000) false))
        "+34600000000" "111111" 1000).2.isSuccess = false ∧
    (verify (some (Account.mk "+34600000000" (some "426731") (some 600000) false))
        "+34600000000" "111111" 1000).1
      = some (Account.mk "+34600000000" (some "426731") (some 600000) false) :=
  ⟨by decide,
    C7_failure_no_mutation
      (some (Account.mk "+34600000000" (some "426731") (some 600000) false))
      "+34600000000" "111111" 1000 (by decide)⟩

/-- Claim C4: `register` on an existing account — in particular an already
verified one — unconditionally resets `verificado` to `false` and stores a
fresh pending code with a new 10-minute expiry, so re-verification is
required after every register call. -/
theorem C4_register_resets_verified (u : Account) (t : String) (k now : Nat)
    (ht : telefonoValido t = true) :
    register (some u) t k now =
      (some { u with
                codigoVerificacion := some (generarCodigo k)
                codigoExpira := some (now + codigoExpiraMs)
                verificado := false },
        .ok { mensaje := registerOkMsg, codigo := some (generarCodigo k) }) := by
  simp [register, ht]

theorem C4_register_resets_verified_witness :
    telefonoValido "+34600000000" = true ∧
    register (some (Account.mk "+34600000000" none none true)) "+34600000000" 7 42 =
      (some (Account.mk "+34600000000" (some (generarCodigo 7)) (some (42 + codigoExpiraMs))
          false),
        .ok { mensaje := registerOkMsg, codigo := some (generarCodigo 7) }) :=
  ⟨by decide,
    C4_register_resets_verified (Account.mk "+34600000000" none none true)
      "+34600000000" 7 42 (by decide)⟩

/-! ### Claim theorems: input validation at the boundary -/

/-- Claim C8, counterexample: the claim makes the leading plus sign
optional, but the Joi pattern `^\+\d{8,15}$` makes it mandatory — the
input `12345678` has the claimed shape (no plus, eight digits) yet
`register` rejects it with a validation error. -/
theorem C8_counterexample :
    specPhoneShape "12345678" = true ∧
    register none "12345678" 0 0 = (none, .validationError telefonoErrMsg) := by
  exact ⟨by decide, by decide⟩

/-- Claim C8, amended: the leading plus sign is mandatory — `register`
rejects with a validation error, before any account is looked up or
created, exactly those inputs that do not match `^\+\d{8,15}$`, and on
matching inputs it never answers a validation error. -/
theorem C8_mandatory_plus (store : Option Account) (s : String) (k now : Nat) :
    (telefonoValido s = false →
      register store s k now = (store, .validationError telefonoErrMsg)) ∧
    (telefonoValido s = true →
      ∃ resp : RegisterResponse, (register store s k now).2 = .ok resp) := by
  constructor
  · intro h
    simp [register, h]
  · intro h
    refine ⟨{ mensaje := registerOkMsg, codigo := some (generarCodigo k) }, ?_⟩
    simp [register, h]

theorem C8_mandatory_plus_witness :
    telefonoValido "12345678" = false ∧
    register none "12345678" 3 9 = (none, .validationError telefonoErrMsg) :=
  ⟨by decide, (C8_mandatory_plus none "12345678" 3 9).1 (by decide)⟩

/-- Claim C9, counterexample: the claim requires the code input to be a
6-digit string, but the Joi schema `Joi.string().length(6)` only checks the
length — the non-digit input `abcdef` is not rejected with a validation
error: it reaches the account lookup and match check and fails as
`invalidCode`. -/
theorem C9_counterexample :
    specCode6Digits "abcdef" = false ∧
    verify (some (Account.mk "+34600000000" (some "426731") (some 600000) false))
        "+34600000000" "abcdef" 0
      = (some (Account.mk "+34600000000" (some "426731") (some 600000) false),
          .invalidCode) := by
  exact ⟨by decide, by decide⟩

/-- Claim C9, amended: `verify` requires its code input to be a string of
exactly six characters (digit content is not enforced): every request
whose code is not six characters long is rejected with a validation error,
uniformly in the stored account — before the account store is consulted. -/
theorem C9_length_six_chars (store : Option Account) (t c : String) (now : Nat)
    (ht : telefonoValido t = true) (hc : c.length ≠ 6) :
    verify store t c now = (store, .validationError codigoErrMsg) := by
  simp [verify, ht, hc]

theorem C9_length_six_chars_witness :
    telefonoValido "+34600000000" = true ∧
    ("12345" : String).length ≠ 6 ∧
    verify none "+34600000000" "12345" 0 = (none, .validationError codigoErrMsg) :=
  ⟨by decide, by decide, C9_length_six_chars none "+34600000000" "12345" 0 (by decide)
    (by decide)⟩

/-- Claim C10, counterexample: the success response of `register` echoes
the generated one-time code back to the caller unconditionally — there is
no config gate in the code path, so the exposure is on for every call, not
a gated development-only behaviour. -/
theorem C10_counterexample :
    (register none "+34600000000" 0 0).2 =
      .ok { mensaje := registerOkMsg, codigo := some (generarCodigo 0) } ∧
    some (generarCodigo 0) ≠ (none : Option String) := by
  exact ⟨rfl, by simp⟩

/-- Claim C10, amended: for every valid phone input, the success response
of `register` carries the generated code in its `codigo` field; no
configuration flag guards the exposure (the source only marks it with a
comment as to be removed for production). -/
theorem C10_code_always_echoed (store : Option Account) (t : String) (k now : Nat)
    (ht : telefonoValido t = true) :
    (register store t k now).2 =
      .ok { mensaje := registerOkMsg, codigo := some (generarCodigo k) } := by
  simp [register, ht]

theorem C10_code_always_echoed_witness :
    telefonoValido "+34600000000" = true ∧
    (register none "+34600000000" 11 5).2 =
      .ok { mensaje := registerOkMsg, codigo := some (generarCodigo 11) } :=
  ⟨by decide, C10_code_always_echoed none "+34600000000" 11 5 (by decide)⟩

/-! ### The shape of the generated codes -/

theorem generarCodigo_eq (k : Nat) :
    generarCodigo k =
      String.mk ((Nat.digits 10 (100000 + k % 900000)).reverse.map Nat.digitChar) := by
  unfold generarCodigo natToString
  rw [if_neg (by omega)]

theorem digits_len_six (m : Nat) (h1 : 100000 ≤ m) (h2 : m < 1000000) :
    (Nat.digits 10 m).length = 6 := by
  have e5 : (10 : Nat) ^ 5 = 100000 := by norm_num
  have e6 : (10 : Nat) ^ (5 + 1) = 1000000 := by norm_num
  have hlog : Nat.log 10 m = 5 :=
    Nat.log_eq_of_pow_le_of_lt_pow (e5 ▸ h1) (e6 ▸ h2)
  rw [Nat.digits_len 10 m (by norm_num) (by omega), hlog]

theorem digitChar_isDigit : ∀ d : Nat, d < 10 → (Nat.digitChar d).isDigit = true := by
  decide

theorem digitChar_ne_zero_char : ∀ d : Nat, d < 10 → d ≠ 0 → Nat.digitChar d ≠ '0' := by
  decide

theorem generarCodigo_head (k : Nat) :
    ∃ d : Nat, d < 10 ∧ d ≠ 0 ∧ (generarCodigo k).data.head? = some (Nat.digitChar d) := by
  have hm0 : 100000 + k % 900000 ≠ 0 := by omega
  have hne : Nat.digits 10 (100000 + k % 900000) ≠ [] :=
    Nat.digits_ne_nil_iff_ne_zero.mpr hm0
  refine ⟨(Nat.digits 10 (100000 + k % 900000)).getLast hne, ?_, ?_, ?_⟩
  · exact Nat.digits_lt_base (by norm_num) (List.getLast_mem hne)
  · exact Nat.getLast_digit_ne_zero 10 hm0
  · rw [generarCodigo_eq]
    show ((Nat.digits 10 (100000 + k % 900000)).reverse.map Nat.digitChar).head? = _
    rw [List.head?_map, List.head?_reverse, List.getLast?_eq_getLast _ hne]
    rfl

theorem generarCodigo_length (k : Nat) : (generarCodigo k).length = 6 := by
  rw [generarCodigo_eq]
  show ((Nat.digits 10 (100000 + k % 900000)).reverse.map Nat.digitChar).length = 6
  rw [List.length_map, List.length_reverse]
  exact digits_len_six _ (by omega) (by omega)

theorem generarCodigo_all_digits (k : Nat) :
    (generarCodigo k).data.all Char.isDigit = true := by
  rw [generarCodigo_eq]
  show ((Nat.digits 10 (100000 + k % 900000)).reverse.map Nat.digitChar).all
      Char.isDigit = true
  rw [List.all_eq_true]
  intro c hc
  rw [List.mem_map] at hc
  obtain ⟨d, hd, rfl⟩ := hc
  rw [List.mem_reverse] at hd
  exact digitChar_isDigit d (Nat.digits_lt_base (by norm_num) hd)

theorem generarCodigo_head_ne_zero (k : Nat) :
    (generarCodigo k).data.head? ≠ some '0' := by
  obtain ⟨d, hd10, hd0, hhead⟩ := generarCodigo_head k
  rw [hhead]
  intro hcontra
  rw [Option.some.injEq] at hcontra
  exact digitChar_ne_zero_char d hd10 hd0 hcontra

/-- Claim C3, counterexample: the claim says the one-time code is drawn
from the full range `000000`–`999999` with leading zeros included, but
`Math.floor(100000 + Math.random() * 900000)` only reaches
`100000`–`999999`: the 6-digit string `000000` is produced by no random
draw. -/
theorem C3_counterexample :
    specCode6Digits "000000" = true ∧ ¬ ∃ k : Nat, generarCodigo k = "000000" := by
  refine ⟨by decide, ?_⟩
  rintro ⟨k, hk⟩
  have h := generarCodigo_head_ne_zero k
  rw [hk] at h
  exact h (by decide)

/-- Claim C3, amended: for every valid phone input, `register` produces a
6-digit numeric code drawn from the subrange `100000`–`999999` (its
leading digit is never `0`), and sets its expiry to exactly 10 minutes
(600000 ms) after the call time. -/
theorem C3_register_code_shape (store : Option Account) (t : String) (k now : Nat)
    (ht : telefonoValido t = true) :
    (generarCodigo k).length = 6 ∧
    (generarCodigo k).data.all Char.isDigit = true ∧
    (generarCodigo k).data.head? ≠ some '0' ∧
    (∃ m : Nat, 100000 ≤ m ∧ m ≤ 999999 ∧ generarCodigo k = natToString m) ∧
    ∃ u : Account, (register store t k now).1 = some u ∧
      u.codigoVerificacion = some (generarCodigo k) ∧
      u.codigoExpira = some (now + 10 * 60 * 1000) := by
  refine ⟨generarCodigo_length k, generarCodigo_all_digits k, generarCodigo_head_ne_zero k,
    ⟨100000 + k % 900000, by omega, by omega, rfl⟩, ?_⟩
  cases store with
  | none =>
    exact ⟨{ telefono := t
             codigoVerificacion := some (generarCodigo k)
             codigoExpira := some (now + codigoExpiraMs)
             verificado := false },
      by simp [register, ht], rfl, rfl⟩
  | some u =>
    exact ⟨{ u with
             codigoVerificacion := some (generarCodigo k)
             codigoExpira := some (now + codigoExpiraMs)
             verificado := false },
      by simp [register, ht], rfl, rfl⟩

theorem C3_register_code_shape_witness :
    telefonoValido "+34600000000" = true ∧
    ((generarCodigo 13).length = 6 ∧
    (generarCodigo 13).data.all Char.isDigit = true ∧
    (generarCodigo 13).data.head? ≠ some '0' ∧
    (∃ m : Nat, 100000 ≤ m ∧ m ≤ 999999 ∧ generarCodigo 13 = natToString m) ∧
    ∃ u : Account, (register none "+34600000000" 13 99).1 = some u ∧
      u.codigoVerificacion = some (generarCodigo 13) ∧
      u.codigoExpira = some (99 + 10 * 60 * 1000)) :=
  ⟨by decide, C3_register_code_shape none "+34600000000" 13 99 (by decide)⟩

/-! ### Claim theorems: the cleanup sweep -/

theorem cleanupUser_of_vencido (now : Nat) (u : Account) (h : expiraVencido now u = true) :
    cleanupUser now u = { u with codigoVerificacion := none, codigoExpira := none } := by
  simp [cleanupUser, h]

theorem cleanupUser_of_not_vencido (now : Nat) (u : Account)
    (h : expiraVencido now u = false) : cleanupUser now u = u := by
  simp [cleanupUser, h]

theorem expiraVencido_some (now : Nat) (u : Account) (h : expiraVencido now u = true) :
    ∃ te : Nat, u.codigoExpira = some te := by
  cases hce : u.codigoExpira with
  | none => simp [expiraVencido, hce] at h
  | some te => exact ⟨te, rfl⟩

theorem cleanupUser_ne (now : Nat) (u : Account) (h : expiraVencido now u = true) :
    cleanupUser now u ≠ u := by
  obtain ⟨te, hte⟩ := expiraVencido_some now u h
  rw [cleanupUser_of_vencido now u h]
  intro hequ
  have hfield := congrArg Account.codigoExpira hequ
  simp [hte] at hfield

theorem expiraVencido_cleanupUser (now : Nat) (u : Account) :
    expiraVencido now (cleanupUser now u) = false := by
  cases hv : expiraVencido now u with
  | true => rw [cleanupUser_of_vencido now u hv]; simp [expiraVencido]
  | false => rw [cleanupUser_of_not_vencido now u hv]; exact hv

/-- Claim C6: the cleanup sweep clears the pending-code and expiry fields
of exactly the accounts whose expiry is in the past, never touches any
`verificado` flag, never deletes an account (the collection keeps its
length), reports the count of accounts it actually modified, and is
idempotent: a second consecutive run reports zero modified accounts. -/
theorem C6_cleanup_behaviour :
    (∀ (store : List Account) (now : Nat), ((cleanup store now).1).length = store.length) ∧
    (∀ (now : Nat) (u : Account), (cleanupUser now u).verificado = u.verificado) ∧
    (∀ (now : Nat) (u : Account), expiraVencido now u = true →
      (cleanupUser now u).codigoVerificacion = none ∧
      (cleanupUser now u).codigoExpira = none) ∧
    (∀ (now : Nat) (u : Account), expiraVencido now u = false → cleanupUser now u = u) ∧
    (∀ (store : List Account) (now : Nat),
      (cleanup store now).2 =
        (store.filter (fun u => decide (cleanupUser now u ≠ u))).length) ∧
    (∀ (store : List Account) (now : Nat), (cleanup (cleanup store now).1 now).2 = 0) := by
  refine ⟨?_, ?_, ?_, ?_, ?_, ?_⟩
  · intro store now
    simp [cleanup]
  · intro now u
    unfold cleanupUser
    split_ifs <;> rfl
  · intro now u h
    rw [cleanupUser_of_vencido now u h]
    exact ⟨rfl, rfl⟩
  · intro now u h
    exact cleanupUser_of_not_vencido now u h
  · intro store now
    unfold cleanup
    simp only
    congr 1
    apply List.filter_congr
    intro u hu
    cases hv : expiraVencido now u with
    | true => simp [cleanupUser_ne now u hv]
    | false => simp [cleanupUser_of_not_vencido now u hv]
  · intro store now
    unfold cleanup
    simp only
    have hnil : ((store.map (cleanupUser now)).filter (expiraVencido now)) = [] := by
      rw [List.filter_eq_nil_iff]
      intro a ha
      rw [List.mem_map] at ha
      obtain ⟨u, _, rfl⟩ := ha
      simp [expiraVencido_cleanupUser]
    rw [hnil]
    rfl

theorem C6_cleanup_behaviour_witness :
    expiraVencido 5000 (Account.mk "+34611111111" (some "426731") (some 100) true) = true ∧
    (cleanupUser 5000
        (Account.mk "+34611111111" (some "426731") (some 100) true)).codigoVerificacion
      = none ∧
    (cleanupUser 5000
        (Account.mk "+34611111111" (some "426731") (some 100) true)).codigoExpira = none :=
  ⟨by decide,
    (C6_cleanup_behaviour.2.2.1 5000
      (Account.mk "+34611111111" (some "426731") (some 100) true) (by decide)).1,
    (C6_cleanup_behaviour.2.2.1 5000
      (Account.mk "+34611111111" (some "426731") (some 100) true) (by decide)).2⟩

/-! ### Claim theorems: the rate limiter on the auth route family -/

theorem runLimiter_in_window (w : Nat) (ts : List Nat) (n : Nat)
    (hw : ∀ t ∈ ts, t < w + windowMs) :
    runLimiter (some { count := n, windowStart := w }) ts =
      (List.range ts.length).map (fun i => decide (n + i + 1 ≤ maxRequests)) := by
  induction ts generalizing n with
  | nil => rfl
  | cons t ts ih =>
    have hlt : ¬ w + windowMs ≤ t := by
      have := hw t (List.mem_cons_self t ts)
      omega
    have hhit : limiterHit (some { count := n, windowStart := w }) t =
        { count := n + 1, windowStart := w } := by
      simp [limiterHit, hlt]
    show limiterAllows (limiterHit (some { count := n, windowStart := w }) t) ::
        runLimiter (some (limiterHit (some { count := n, windowStart := w }) t)) ts = _
    rw [hhit, ih (n + 1) (fun t' ht' => hw t' (List.mem_cons_of_mem _ ht'))]
    rw [List.length_cons, List.range_succ_eq_map, List.map_cons, List.map_map]
    congr 1
    apply List.map_congr_left
    intro i hi
    show decide (n + 1 + i + 1 ≤ maxRequests) = decide (n + (i + 1) + 1 ≤ maxRequests)
    apply decide_eq_decide.mpr
    omega

/-- Claim C5: for one client IP, in a run of requests to the `/auth` route
family that all fall in the still-open 60-minute window, the i-th request
is admitted exactly when i < 4 — so at most 4 are admitted and the 5th is
rejected; a rejected request is answered with the configured
`{success := false, message}` body and never reaches the register/verify
handlers: the account store is left untouched. -/
theorem C5_rate_limiter :
    (∀ (t0 : Nat) (rest : List Nat), (∀ t ∈ rest, t < t0 + windowMs) →
      runLimiter none (t0 :: rest) =
        (List.range (rest.length + 1)).map (fun i => decide (i < maxRequests))) ∧
    (∀ (lim : Option LimiterEntry) (store : Option Account) (req : AuthRequest) (now : Nat),
      limiterAllows (limiterHit lim now) = false →
      authApp lim store req now = (limiterHit lim now, store, .rateLimited authLimiterMessage)) ∧
    authLimiterMessage.success = false := by
  refine ⟨?_, ?_, rfl⟩
  · intro t0 rest hw
    show limiterAllows (limiterHit none t0) ::
        runLimiter (some (limiterHit none t0)) rest = _
    rw [show limiterHit none t0 = { count := 1, windowStart := t0 } from rfl]
    rw [runLimiter_in_window t0 rest 1 hw]
    rw [List.range_succ_eq_map, List.map_cons, List.map_map]
    congr 1
    apply List.map_congr_left
    intro i hi
    show decide (1 + i + 1 ≤ maxRequests) = decide (Nat.succ i < maxRequests)
    apply decide_eq_decide.mpr
    omega
  · intro lim store req now h
    simp [authApp, h]

theorem C5_rate_limiter_witness :
    (∀ t ∈ [1, 2, 3, 4], t < 0 + windowMs) ∧
    runLimiter none (0 :: [1, 2, 3, 4]) =
      (List.range (List.length [1, 2, 3, 4] + 1)).map (fun i => decide (i < maxRequests)) ∧
    (List.range (List.length [1, 2, 3, 4] + 1)).map (fun i => decide (i < maxRequests)) =
      [true, true, true, true, false] :=
  ⟨by decide, C5_rate_limiter.1 0 [1, 2, 3, 4] (by decide), by decide⟩

end ServiPro
